import Mathlib

/-!
# Verification of the nf-core/abotyper pileup decoding and genotype-inference engine

This development shallowly embeds the core logic of the repository's Python
sources and proves properties about it:

* `src/bin/stats_from_pileup.py` — the pileup decoder (`parse_mpileup_line`,
  `create_zero_stats`, `write_stats`).
* `src/bin/predict_abo_phenotype.py` — the intermediate-format re-parser
  (`read_nucleotide_frequencies`).
* `src/bin/aggregate_abo_reports.py` — the position classifiers
  (`get_type`, `get_type_exon6`), the table completion in
  `parse_exon6`/`parse_exon7`, and the genotype resolver
  (`assign_phenotype_genotype`).

Machine integers are modelled as `Int`/`Nat`; Python percentage values that
arrive through `float(...)` are modelled as `ℚ`.  Python's
`int((count / denominator) * 100)` is modelled as exact floor division
`count * 100 / denominator`; the binary floating-point computation can differ
from the exact floor by one in rare cases, and none of the properties proved
here depend on that difference.  Fallible Python code (exceptions caught by
`try/except` blocks returning `None`) is modelled with `Option`.
-/

namespace Abotyper

/-! ## Decimal numerals

Python serializes an `int` with `str` (decimal digits, `-` sign for negative
numbers) and parses decimal strings with `int(...)` / `float(...)`.  We model
the digit characters and the two directions explicitly. -/

/-- The decimal digit character for a value `d < 10` (`str` on one digit). -/
def digitChar (d : Nat) : Char :=
  match d with
  | 0 => '0' | 1 => '1' | 2 => '2' | 3 => '3' | 4 => '4'
  | 5 => '5' | 6 => '6' | 7 => '7' | 8 => '8' | _ => '9'

/-- The numeric value of an ASCII digit character (Python `int` computes
codepoint minus 48 for ASCII digits). -/
def digitVal (c : Char) : Nat := c.toNat - 48

/-- Fuel-driven body of `natRepr`; the fuel is a structural-recursion
artifact only (`natRepr` always supplies enough). -/
def natReprAux : Nat → Nat → List Char
  | 0, _ => []
  | fuel + 1, n =>
    if n < 10 then [digitChar n]
    else natReprAux fuel (n / 10) ++ [digitChar (n % 10)]

/-- Decimal representation of a natural number, most significant digit first
(the semantics of Python `str` on a nonnegative `int`). -/
def natRepr (n : Nat) : List Char :=
  natReprAux (n + 1) n

/-- Parse a nonempty all-digit character list as a natural number
(the semantics of Python `int` on a string of ASCII digits). -/
def parseNat? (cs : List Char) : Option Nat :=
  if cs ≠ [] ∧ cs.all Char.isDigit then
    some (cs.foldl (fun a c => a * 10 + digitVal c) 0)
  else none

/-- Python `str` on an `int` (decimal, `-` sign when negative). -/
def pyStr (n : Int) : String :=
  if n < 0 then ⟨'-' :: natRepr n.natAbs⟩ else ⟨natRepr n.natAbs⟩

/-- List-level body of `pyInt?`: an optional leading `-` sign followed by
decimal digits. -/
def pyIntList? (cs : List Char) : Option Int :=
  match cs with
  | '-' :: rest => (parseNat? rest).map (fun (m : Nat) => -(m : Int))
  | rest => (parseNat? rest).map (fun (m : Nat) => (m : Int))

/-- Python `int(...)` on a plain decimal string (optional leading `-`).
`None` models the `ValueError` raised on anything else.  (Python also accepts
surrounding whitespace, `+`, and underscores; those never occur in this
pipeline's data.) -/
def pyInt? (s : String) : Option Int :=
  pyIntList? s.data

/-- Python `float(...)` restricted to the plain decimal integer strings that
`write_stats` emits; the value is exact for such strings. -/
def pyFloat? (s : String) : Option ℚ :=
  (pyInt? s).map (fun (m : Int) => (m : ℚ))

/-! ## The pileup decoder (`src/bin/stats_from_pileup.py`)

`parse_mpileup_line` splits a tab-separated mpileup line, strips read
start/end markers from the read-base code, scans the code character by
character counting matches, mismatches, insertions and deletions, and turns
the counts into percentages. -/

/-- One per-position statistics record, the dictionary built by
`parse_mpileup_line` / `create_zero_stats`.  All numeric fields are Python
ints. -/
structure MStats where
  pos : Int
  ref_base : String
  match_percent : Int
  mismatch_percent : Int
  insertion_percent : Int
  deletion_percent : Int
  a_percent : Int
  g_percent : Int
  c_percent : Int
  t_percent : Int
  depth : Int
deriving DecidableEq, Repr

/-- `create_zero_stats`: a stats record with zero values. -/
def create_zero_stats (pos : Int) (ref_base : String) : MStats :=
  ⟨pos, ref_base, 0, 0, 0, 0, 0, 0, 0, 0, 0⟩

/-- The event counters accumulated by the scanning loop of
`parse_mpileup_line` (`matches` and `mismatches`, modelled as `matchCount`/`mismatchCount` since `matches` is reserved in Lean, `insertions`, `deletions`, and
the `base_counts` dictionary with its four keys `A`, `G`, `C`, `T`). -/
structure PileCounts where
  matchCount : Nat
  mismatchCount : Nat
  insertions : Nat
  deletions : Nat
  a : Nat
  g : Nat
  c : Nat
  t : Nat
deriving DecidableEq, Repr

def PileCounts.zero : PileCounts := ⟨0, 0, 0, 0, 0, 0, 0, 0⟩

/-- `base_counts[key] += 1`: bump the counter for one of the four nucleotide
keys; a `KeyError` (any other key) is modelled as `none`. -/
def bumpBase (k : PileCounts) (key : String) : Option PileCounts :=
  if key = "A" then some { k with a := k.a + 1 }
  else if key = "G" then some { k with g := k.g + 1 }
  else if key = "C" then some { k with c := k.c + 1 }
  else if key = "T" then some { k with t := k.t + 1 }
  else none

/-- `re.sub(r"\^.", "", read_bases)`: drop every `^` together with the
character that follows it.  (A lone trailing `^` is not matched by the regex
and survives; the regex metacharacter `.` not matching a newline is
irrelevant here because the line was already split on its terminator.) -/
def stripCarets : List Char → List Char
  | [] => []
  | '^' :: _ :: rest => stripCarets rest
  | '^' :: [] => ['^']
  | c :: rest => c :: stripCarets rest

/-- Fuel-driven body of the scanning loop; the fuel is a
structural-recursion artifact only (`scanReadBases` always supplies enough,
since every iteration consumes at least one character). -/
def scanAux (ref_base : String) : Nat → List Char → Option PileCounts
  | 0, _ => none
  | _ + 1, [] => some PileCounts.zero
  | fuel + 1, ch :: rest =>
    if ch = '.' ∨ ch = ',' then
      (scanAux ref_base fuel rest).bind (fun k =>
        (bumpBase k ref_base).map (fun k2 => { k2 with matchCount := k2.matchCount + 1 }))
    else if ch.toUpper = 'A' ∨ ch.toUpper = 'C' ∨ ch.toUpper = 'G' ∨ ch.toUpper = 'T' then
      (scanAux ref_base fuel rest).bind (fun k =>
        (bumpBase k (String.mk [ch.toUpper])).map
          (fun k2 => { k2 with mismatchCount := k2.mismatchCount + 1 }))
    else if ch = '+' then
      let ds := rest.takeWhile Char.isDigit
      let rest2 := rest.dropWhile Char.isDigit
      let n := (parseNat? ds).getD 0
      (scanAux ref_base fuel (rest2.drop n)).map
        (fun k => { k with insertions := k.insertions + 1 })
    else if ch = '-' then
      let ds := rest.takeWhile Char.isDigit
      let rest2 := rest.dropWhile Char.isDigit
      let n := (parseNat? ds).getD 0
      (scanAux ref_base fuel (rest2.drop n)).map
        (fun k => { k with deletions := k.deletions + 1 })
    else if ch = '*' then
      (scanAux ref_base fuel rest).map (fun k => { k with deletions := k.deletions + 1 })
    else
      scanAux ref_base fuel rest

/-- The character-scanning loop of `parse_mpileup_line` over the read-base
code (after `^`-pair and `$` removal): `.`/`,` count a match and bump the
reference base, letters whose uppercase is one of `ACGT` count a mismatch and
bump that base, `+`/`-` consume their digit run and skip that many following
characters while counting one insertion/deletion, `*` counts a deletion, and
everything else is skipped.  `none` models the `KeyError` raised when a match
is recorded against a reference base outside `ACGT`.  (Python's `isdigit`
also accepts non-ASCII digit characters; mpileup data is ASCII.) -/
def scanReadBases (ref_base : String) (cs : List Char) : Option PileCounts :=
  scanAux ref_base (cs.length + 1) cs

/-- The four-entry `base_percentages` dictionary. -/
structure BasePcts where
  a : Int
  g : Int
  c : Int
  t : Int
deriving DecidableEq, Repr

/-- `base_percentages[key]`; `none` models the `KeyError` on a key other than
the four nucleotides. -/
def lookupBase (bp : BasePcts) (key : String) : Option Int :=
  if key = "A" then some bp.a
  else if key = "G" then some bp.g
  else if key = "C" then some bp.c
  else if key = "T" then some bp.t
  else none

/-- `base_percentages[key] += diff`; `none` models the `KeyError`. -/
def addBase (bp : BasePcts) (key : String) (diff : Int) : Option BasePcts :=
  if key = "A" then some { bp with a := bp.a + diff }
  else if key = "G" then some { bp with g := bp.g + diff }
  else if key = "C" then some { bp with c := bp.c + diff }
  else if key = "T" then some { bp with t := bp.t + diff }
  else none

/-- `sum(base_percentages[base] for base in "ACGT" if base != ref_base)`. -/
def mismatchSum (bp : BasePcts) (ref_base : String) : Int :=
  (if ref_base = "A" then 0 else bp.a) + (if ref_base = "C" then 0 else bp.c) +
    (if ref_base = "G" then 0 else bp.g) + (if ref_base = "T" then 0 else bp.t)

/-- `int((count / denominator) * 100)` (see the file header for the
floating-point caveat). -/
def pctOf (count denom : Nat) : Int :=
  ((count * 100) / denom : Nat)

/-- The indel-policy decision of `parse_mpileup_line` (its
`include_indels` variable): indels are excluded for low-coverage exon-6
records away from position 22, and for low-coverage records of long
(`total_rows > 140`) references away from positions 431 and 687. -/
def includeIndels (exon_info : Option String) (total_rows : Nat)
    (pos coverage : Int) : Bool :=
  if exon_info = some "exon6" ∧ coverage < 200 ∧ pos ≠ 22 then false
  else if total_rows > 140 ∧ coverage < 200 then
    if pos = 431 ∨ pos = 687 then true else false
  else true

/-- Assemble the final stats dictionary of `parse_mpileup_line` from the base
percentages and indel percentages (`match_percent = base_percentages[ref_base]`
raises — `none` — when the reference base is not one of `ACGT`). -/
def mkStats (pos coverage : Int) (ref_base : String) (bp : BasePcts)
    (ins_pct del_pct : Int) : Option MStats :=
  (lookupBase bp ref_base).map (fun mp =>
    ⟨pos, ref_base, mp, mismatchSum bp ref_base, ins_pct, del_pct,
      bp.a, bp.g, bp.c, bp.t, coverage⟩)

/-- The percentage-computation tail of `parse_mpileup_line`: from the event
counts, either the include-indels or exclude-indels denominator policy.  In
exclude-indels mode the rounding remainder `100 - atgc_sum` is folded into
the reference-base percentage whenever `atgc_sum ≠ 100` and `atgc_sum > 0`,
and the indel percentages are forced to `0`. -/
def statsFromCounts (include_indels : Bool) (pos coverage : Int)
    (ref_base : String) (k : PileCounts) : Option MStats :=
  let total_events := k.matchCount + k.mismatchCount + k.insertions + k.deletions
  let total_nucleotides := k.matchCount + k.mismatchCount
  if total_events = 0 then some (create_zero_stats pos ref_base)
  else if include_indels then
    let d := total_events
    let bp : BasePcts := ⟨pctOf k.a d, pctOf k.g d, pctOf k.c d, pctOf k.t d⟩
    mkStats pos coverage ref_base bp (pctOf k.insertions d) (pctOf k.deletions d)
  else
    let d := total_nucleotides
    if d = 0 then some (create_zero_stats pos ref_base)
    else
      let bp : BasePcts := ⟨pctOf k.a d, pctOf k.g d, pctOf k.c d, pctOf k.t d⟩
      let atgc_sum := bp.a + bp.g + bp.c + bp.t
      (if atgc_sum ≠ 100 ∧ atgc_sum > 0 then addBase bp ref_base (100 - atgc_sum)
        else some bp).bind (fun bp' => mkStats pos coverage ref_base bp' 0 0)

/-- The whitespace characters removed by Python's default `str.strip`. -/
def pyWhitespace (c : Char) : Bool :=
  c = ' ' ∨ c = '\t' ∨ c = '\n' ∨ c = '\r' ∨ c = '\x0b' ∨ c = '\x0c'

/-- Python `line.strip()`: drop leading and trailing whitespace. -/
def pyStrip (cs : List Char) : List Char :=
  ((cs.dropWhile pyWhitespace).reverse.dropWhile pyWhitespace).reverse

/-- Python `s.split("\t")`: split at every tab, keeping empty fields. -/
def splitTabs : List Char → List (List Char)
  | [] => [[]]
  | '\t' :: rest => [] :: splitTabs rest
  | ch :: rest =>
    match splitTabs rest with
    | f :: fs => (ch :: f) :: fs
    | [] => [[ch]]

/-- `fields[2].upper()`: uppercase each character (ASCII data in this
pipeline). -/
def pyUpper (s : String) : String :=
  String.mk (s.data.map Char.toUpper)

/-- `line.strip().split("\t")` as a list of field strings. -/
def lineFields (line : String) : List String :=
  (splitTabs (pyStrip line.data)).map (fun cs => String.mk cs)

/-- `parse_mpileup_line`: split the (stripped) line on tabs, require at least
six fields, parse position and coverage, strip `^`-pairs and `$` from the
read-base code, scan it, and compute percentages under the indel policy.
`none` models every exception caught by the function's `try/except`. -/
def parse_mpileup_line (line : String) (exon_info : Option String)
    (total_rows : Nat) : Option MStats :=
  let fields := lineFields line
  if fields.length < 6 then none
  else
    (pyInt? ((fields.get? 1).getD "")).bind (fun pos =>
      let ref_base := pyUpper ((fields.get? 2).getD "")
      (pyInt? ((fields.get? 3).getD "")).bind (fun coverage =>
        let read_bases := (fields.get? 4).getD ""
        if coverage = 0 then some (create_zero_stats pos ref_base)
        else
          let cleaned := (stripCarets read_bases.data).filter (fun c => c ≠ '$')
          (scanReadBases ref_base cleaned).bind (fun k =>
            statsFromCounts (includeIndels exon_info total_rows pos coverage)
              pos coverage ref_base k)))

/-! ## The intermediate tab-separated format

`write_stats` writes one tab-separated line of eleven fields per record;
`read_nucleotide_frequencies` (in `src/bin/predict_abo_phenotype.py`) reads
the file back with pandas and rebuilds a per-position dictionary.  A line is
modelled as its list of tab-separated fields: no field written by
`write_stats` contains a tab or newline, so joining with tabs and re-splitting
is the identity on the field list. -/

/-- The fields of the line written by `write_stats` for one record. -/
def write_stats_fields (s : MStats) : List String :=
  [pyStr s.pos, s.ref_base, pyStr s.match_percent, pyStr s.mismatch_percent,
    pyStr s.insertion_percent, pyStr s.deletion_percent, pyStr s.a_percent,
    pyStr s.g_percent, pyStr s.c_percent, pyStr s.t_percent, pyStr s.depth]

/-- The header line written by `process_mpileup_file`. -/
def statsHeaderFields : List String :=
  ["Ref_Position_1based", "Ref_Base", "Match_Percent", "Mismatch_Percent",
    "Insertion_Percent", "Deletion_Percent", "A_Percent", "G_Percent",
    "C_Percent", "T_Percent", "Depth"]

/-- Serialize a whole frequency table: header line then one line per record. -/
def serializeStatsTable (tbl : List MStats) : List (List String) :=
  statsHeaderFields :: tbl.map write_stats_fields

/-- One entry of the `positions` dictionary built by
`read_nucleotide_frequencies`: the eight percentages re-parsed as floats and
a `coverage` field initialized to `0` (the `Depth` column is not read back). -/
structure PRow where
  pos : Int
  ref_base : String
  match_percent : ℚ
  mismatch_percent : ℚ
  insertion_percent : ℚ
  deletion_percent : ℚ
  A_percent : ℚ
  G_percent : ℚ
  C_percent : ℚ
  T_percent : ℚ
  coverage : Int
deriving DecidableEq, Repr

/-- The per-row body of `read_nucleotide_frequencies`' loop: parse the
position as `int` and the eight percentage columns as `float`; `none` models
the `ValueError`/`KeyError` that makes the loop `continue` past the row. -/
def parseFreqRow (row : List String) : Option PRow :=
  (pyInt? (row.getD 0 "")).bind (fun pos =>
    let ref_base := row.getD 1 ""
    (pyFloat? (row.getD 2 "")).bind (fun mat =>
      (pyFloat? (row.getD 3 "")).bind (fun mis =>
        (pyFloat? (row.getD 4 "")).bind (fun ins =>
          (pyFloat? (row.getD 5 "")).bind (fun dele =>
            (pyFloat? (row.getD 6 "")).bind (fun a =>
              (pyFloat? (row.getD 7 "")).bind (fun g =>
                (pyFloat? (row.getD 8 "")).bind (fun c =>
                  (pyFloat? (row.getD 9 "")).map (fun t =>
                    ⟨pos, ref_base, mat, mis, ins, dele, a, g, c, t, 0⟩)))))))))

/-- `read_nucleotide_frequencies` on a tab-separated file (header line plus
data rows): empty files, files with fewer than 134 data rows, and files in
which no row parses all yield the empty-result flag (`none`); otherwise the
`positions` dictionary maps each position to the last successfully parsed row
carrying it.  (The returned `max_position` is not modelled; no claim
concerns it.) -/
def read_nucleotide_frequencies (tbl : List (List String)) :
    Option (Int → Option PRow) :=
  match tbl with
  | [] => none
  | _header :: rows =>
    if rows.length < 134 then none
    else
      let parsed := rows.filterMap parseFreqRow
      if parsed.isEmpty then none
      else some (fun p => (parsed.filter (fun r => r.pos = p)).getLast?)

/-- The image of a serialized record under the re-parser: percentages become
the exact rational values of the written integers, and `coverage` is `0`. -/
def reparsedRow (s : MStats) : PRow :=
  ⟨s.pos, s.ref_base, (s.match_percent : ℚ), (s.mismatch_percent : ℚ),
    (s.insertion_percent : ℚ), (s.deletion_percent : ℚ), (s.a_percent : ℚ),
    (s.g_percent : ℚ), (s.c_percent : ℚ), (s.t_percent : ℚ), 0⟩

/-! ## Position classifiers (`src/bin/aggregate_abo_reports.py`)

`get_type_exon6` and `get_type` map one position's nucleotide (and for
exon 6, deletion) percentages to a marker-call label through an ordered
if/elif chain; every fall-through returns `""`.  Percentages reach these
functions through `float(...)`, modelled as `ℚ`. -/

/-- `ABOReportParser.get_type_exon6`. -/
def get_type_exon6 (pos : Int) (a g c t dele : ℚ) : String :=
  if pos = 22 then
    if g ≥ 80 ∧ g > dele then "A or B or O"
    else if dele ≥ 80 ∧ dele > g then "O1"
    else if |g + dele| ≥ 20 then "O1 and (A or B or O)"
    else if 20 < dele ∧ dele < 80 ∧ 20 < g ∧ g < 80 then "O1 and (A or B or O)"
    else ""
  else if pos = 27 then
    if c ≥ 80 then "A1 or A3"
    else if t ≥ 80 then "A2"
    else if 20 < c ∧ c < 80 ∧ 20 < t ∧ t < 80 then "A1/A3 and A2"
    else ""
  else if pos = 29 then
    if t ≥ 80 then "A1 or A3"
    else if c ≥ 80 then "A2"
    else if 20 < t ∧ t < 80 ∧ 20 < c ∧ c < 80 then "A1/A3 and A2"
    else ""
  else if pos = 58 then
    if a ≥ 80 then "A1 or A3"
    else if g ≥ 80 then "A2"
    else if 20 < a ∧ a < 80 ∧ 20 < g ∧ g < 80 then "A1/A3 and A2"
    else ""
  else ""

/-- `ABOReportParser.get_type` (exon-7 positions). -/
def get_type (pos : Int) (a g c t : ℚ) : String :=
  if pos = 422 then
    if c ≥ 80 then "A or O"
    else if a ≥ 80 then "B"
    else if |a - c| ≤ 20 then "(A or O) and B"
    else if 15 < a ∧ a < 80 ∧ 15 < c ∧ c < 80 then "(A or O) and B"
    else ""
  else if pos = 428 then
    if g ≥ 80 then "O and (A or B)"
    else if a ≥ 80 then "O2"
    else if |g - a| ≤ 20 then "O2 and (O or A or B)"
    else if 15 < g ∧ g < 80 ∧ 15 < a ∧ a < 80 then "O2 and (O or A or B)"
    else ""
  else if pos = 429 then
    if g ≥ 80 then "A or O"
    else if c ≥ 80 then "B"
    else if |g - c| ≤ 20 then "(A or O) and B"
    else if 15 < g ∧ g < 80 ∧ 20 < c ∧ c < 80 then "(A or O) and B"
    else ""
  else if pos = 431 then
    if t ≥ 80 then "O and (A or B)"
    else if g ≥ 80 then "O3"
    else if |t - g| ≤ 20 then "O3 and (O or A or B)"
    else if 20 < t ∧ t < 80 ∧ 20 < g ∧ g < 80 then "O3 and (O or A or B)"
    else ""
  else if pos = 467 then
    if c ≥ 80 then "A1"
    else if t ≥ 80 then "A2 or A3"
    else if 20 < c ∧ c < 80 ∧ 20 < t ∧ t < 80 then "A1 and (A2 or A3)"
    else ""
  else if pos = 539 then
    if c ≥ 80 then "A1 or A2"
    else if t ≥ 80 then "A3"
    else if 20 < c ∧ c < 80 ∧ 20 < t ∧ t < 80 then "(A1 or A2) and A3"
    else ""
  else if pos = 646 then
    if t ≥ 80 then "A1"
    else if a ≥ 80 then "A2"
    else if 20 < t ∧ t < 80 ∧ 20 < a ∧ a < 80 then "A1 and A2"
    else ""
  else if pos = 681 then
    if g ≥ 80 then "A1 or A2"
    else if a ≥ 80 then "A3"
    else if 20 < g ∧ g < 80 ∧ 20 < a ∧ a < 80 then "(A1 or A2) and A3"
    else ""
  else if pos = 745 then
    if c ≥ 80 then "A1 or A2"
    else if t ≥ 80 then "A3"
    else if 20 < c ∧ c < 80 ∧ 20 < t ∧ t < 80 then "(A1 or A2) and A3"
    else ""
  else if pos = 820 then
    if a ≥ 80 then "A1 or A2"
    else if c ≥ 80 then "A3"
    else if 20 < a ∧ a < 80 ∧ 20 < c ∧ c < 80 then "(A1 or A2) and A3"
    else ""
  else if pos = 1054 then
    if g ≥ 80 then "A1 or A3"
    else if a ≥ 80 then "A2"
    else if 20 < g ∧ g < 80 ∧ 20 < a ∧ a < 80 then "(A1 or A3) and A2"
    else ""
  else if pos = 1061 then
    if c ≥ 80 then "A1"
    else if t ≥ 80 then "A2 or A3"
    else if 20 < c ∧ c < 80 ∧ 20 < t ∧ t < 80 then "A1 and (A2 or A3)"
    else ""
  else ""

/-! ### Table completion in `parse_exon6` / `parse_exon7`

After reading the per-position rows out of a report file, both parsers append
a zero-valued row for every required position that is absent, sort by
position, and then compute the `Type` column. -/

/-- One row of the per-exon DataFrame (`#Reads` and the eight numeric
columns parsed with `float(x)`). -/
structure ExonRow where
  pos : Int
  reads : Int
  mat : ℚ
  mis : ℚ
  ins : ℚ
  dele : ℚ
  a : ℚ
  g : ℚ
  c : ℚ
  t : ℚ
deriving DecidableEq, Repr

/-- The zero-valued synthetic row appended for a missing position. -/
def zeroExonRow (p : Int) : ExonRow := ⟨p, 0, 0, 0, 0, 0, 0, 0, 0, 0⟩

/-- The required positions of `parse_exon7` (`all_positions`). -/
def exon7_all_positions : List Int :=
  [422, 428, 429, 431, 467, 539, 646, 681, 745, 820, 1054, 1061]

/-- The required positions of `parse_exon6` (`all_positions`). -/
def exon6_all_positions : List Int := [22, 27, 29, 58]

/-- The completion loop of `parse_exon6`/`parse_exon7`: append a zero row for
every required position with no row in the DataFrame.  (The source re-checks
against the growing DataFrame, which is equivalent because the required lists
are duplicate-free.) -/
def add_missing_positions (required : List Int) (rows : List ExonRow) :
    List ExonRow :=
  rows ++ (required.filter (fun p => rows.all (fun r => r.pos ≠ p))).map zeroExonRow

/-- `parse_exon7` after file reading: complete the rows, sort by position
(`sort_values` is stable, like `mergeSort`), and compute the `Type` column
via `get_type`. -/
def parse_exon7_table (rows : List ExonRow) : List (ExonRow × String) :=
  ((add_missing_positions exon7_all_positions rows).mergeSort
      (fun r s => r.pos ≤ s.pos)).map
    (fun r => (r, get_type r.pos r.a r.g r.c r.t))

/-- `parse_exon6` after file reading: complete the rows, sort by position and
compute the `Type` column via `get_type_exon6`. -/
def parse_exon6_table (rows : List ExonRow) : List (ExonRow × String) :=
  ((add_missing_positions exon6_all_positions rows).mergeSort
      (fun r s => r.pos ≤ s.pos)).map
    (fun r => (r, get_type_exon6 r.pos r.a r.g r.c r.t r.dele))

/-! ## The genotype resolver (`assign_phenotype_genotype`)

The resolver reads the five primary marker calls and five primary read counts
out of the sample's DataFrame (`df.at` — a missing column raises, which the
surrounding `try/except` turns into the Error result), matches the 5-tuple of
calls against fifteen exact patterns in order, refines a homozygous `AA` call
with the A-subtype positions, and grades reliability from the read counts.

DataFrame cells are modelled as explicit `missing` (column absent — a lookup
raises) / `nanv` (cell present but NaN) / value alternatives.  A NaN marker
cell compares unequal to every pattern string and `str(...)`-converts to
`"nan"`; both behaviours are captured by reading it as the string `"nan"`,
which occurs as no pattern and contains no subtype marker. -/

/-- A `Type` cell of the sample DataFrame. -/
inductive PCell where
  | missing : PCell
  | nanv : PCell
  | str : String → PCell
deriving DecidableEq, Repr

/-- A `#Reads` cell of the sample DataFrame. -/
inductive RCell where
  | missing : RCell
  | nanv : RCell
  | val : ℚ → RCell
deriving DecidableEq, Repr

/-- The guarded subtype lookup `df.at[...] if (col, "Type") in df.columns
else ""`, as the string the subtype logic sees (`str(nan)` is `"nan"`). -/
def PCell.guarded : PCell → String
  | .missing => ""
  | .nanv => "nan"
  | .str s => s

/-- Python's substring test `needle in hay`. -/
def pyIn (needle hay : String) : Bool :=
  decide (List.IsInfix needle.data hay.data)

/-- The eleven A-subtype marker calls used by the `AA` refinement, already
read out of the DataFrame. -/
structure Subtypes where
  e27 : String
  e29 : String
  e58 : String
  p467 : String
  p539 : String
  p646 : String
  p681 : String
  p745 : String
  p820 : String
  p1054 : String
  p1061 : String
deriving DecidableEq, Repr

/-- PART 2 of `assign_phenotype_genotype`: accumulate the three evidence
flags `a1_markers`/`a2_markers`/`a3_markers` over the subtype positions and
select the extended genotype; `"AA"` when no flag is set. -/
def assign_a_subtype (subs : Subtypes) : String :=
  let a1 := false
  let a2 := false
  let a3 := false
  -- Process exon 6 positions
  let (a1, a3) :=
    if pyIn "A1 or A3" subs.e27 || pyIn "A1 or A3" subs.e29 || pyIn "A1 or A3" subs.e58 then
      if pyIn "A3" subs.p539 || pyIn "A3" subs.p681 || pyIn "A3" subs.p745 ||
          pyIn "A3" subs.p820 then
        (a1, true)
      else (true, a3)
    else (a1, a3)
  let a2 := if pyIn "A2" subs.e27 || pyIn "A2" subs.e29 || pyIn "A2" subs.e58 then true else a2
  -- Position 467 rules
  let (a1, a2, a3) :=
    if subs.p467 = "A1" then (true, a2, a3)
    else if subs.p467 = "A2 or A3" then
      if pyIn "A3" subs.p681 || pyIn "A3" subs.p539 || pyIn "A3" subs.p745 ||
          pyIn "A3" subs.p820 then
        (a1, a2, true)
      else (a1, true, a3)
    else (a1, a2, a3)
  -- Position 539 rules
  let (a1, a2, a3) :=
    if pyIn "A1 or A2" subs.p539 then
      if pyIn "A1" subs.p467 || pyIn "A1" subs.p1061 || pyIn "A1" subs.p646 then
        (true, a2, a3)
      else (a1, true, a3)
    else if pyIn "A3" subs.p539 then (a1, a2, true)
    else (a1, a2, a3)
  -- Position 646 rules
  let (a1, a2) :=
    if subs.p646 = "A1" then (true, a2)
    else if subs.p646 = "A2" then (a1, true)
    else (a1, a2)
  -- Position 681 rules
  let (a1, a2, a3) :=
    if pyIn "A1 or A2" subs.p681 then
      if pyIn "A1" subs.p467 || pyIn "A1" subs.p646 || pyIn "A1" subs.p1061 then
        (true, a2, a3)
      else (a1, true, a3)
    else if pyIn "A3" subs.p681 then (a1, a2, true)
    else (a1, a2, a3)
  -- Position 745, 820, 1054, 1061 rules
  let (a1, a2, a3) :=
    if pyIn "A1" subs.p1061 then (true, a2, a3)
    else if pyIn "A2 or A3" subs.p1061 then
      if pyIn "A3" subs.p539 || pyIn "A3" subs.p681 || pyIn "A3" subs.p745 ||
          pyIn "A3" subs.p820 then
        (a1, a2, true)
      else (a1, true, a3)
    else (a1, a2, a3)
  -- Special mixed rules
  let (a1, a2, a3) :=
    if pyIn "A1 and" subs.p467 || pyIn "A1 and" subs.p646 || pyIn "A1 and" subs.p1061 then
      if pyIn "A3" subs.p681 || pyIn "A3" subs.p539 || pyIn "A3" subs.p745 ||
          pyIn "A3" subs.p820 then
        (true, a2, true)
      else (true, true, a3)
    else (a1, a2, a3)
  -- Apply A extended genotype
  if a1 && a2 && a3 then
    if pyIn "A1" subs.p467 || pyIn "A1" subs.p646 || pyIn "A1" subs.p1061 then
      if pyIn "A3" subs.p681 || pyIn "A3" subs.p539 || pyIn "A3" subs.p745 ||
          pyIn "A3" subs.p820 then
        "A1A3"
      else "A1A2"
    else "A2A3"
  else if a1 && a2 then "A1A2"
  else if a1 && a3 then "A1A3"
  else if a2 && a3 then "A2A3"
  else if a1 then "A1A1"
  else if a2 then "A2A2"
  else if a3 then "A3A3"
  else "AA"

/-- The fifteen exact 5-tuple patterns of PART 1, in chain order
(combination 1 through combination 15). -/
def primary_patterns : List (String × String × String × String × String) :=
  [("O1 and (A or B or O)", "A or O", "O and (A or B)", "A or O", "O and (A or B)"),
   ("A or B or O", "A or O", "O2 and (O or A or B)", "A or O", "O and (A or B)"),
   ("A or B or O", "A or O", "O and (A or B)", "A or O", "O3 and (O or A or B)"),
   ("O1 and (A or B or O)", "B", "O and (A or B)", "B", "O and (A or B)"),
   ("A or B or O", "B", "O2 and (O or A or B)", "B", "O and (A or B)"),
   ("A or B or O", "B", "O and (A or B)", "B", "O3 and (O or A or B)"),
   ("O1", "A or O", "O2", "A or O", "O and (A or B)"),
   ("O1", "A or O", "O and (A or B)", "A or O", "O3"),
   ("A or B or O", "A or O", "O2", "A or O", "O3"),
   ("O1", "A or O", "O and (A or B)", "A or O", "O and (A or B)"),
   ("A or B or O", "A or O", "O2", "A or O", "O and (A or B)"),
   ("A or B or O", "A or O", "O and (A or B)", "A or O", "O3"),
   ("A or B or O", "A or O", "O and (A or B)", "A or O", "O and (A or B)"),
   ("A or B or O", "B", "O and (A or B)", "B", "O and (A or B)"),
   ("A or B or O", "(A or O) and B", "O and (A or B)", "(A or O) and B", "O and (A or B)")]

/-- PART 1 of `assign_phenotype_genotype`: the ordered 15-pattern match on
the five primary marker calls, with the `AA` branch (combination 13) refined
by `assign_a_subtype`; any unmatched tuple yields
`("Unknown", "Unknown", "Unknown")`. -/
def assign_phenotype_genotype_core (t6 t422 t428 t429 t431 : String)
    (subs : Subtypes) : String × String × String :=
  if t6 = "O1 and (A or B or O)" ∧ t422 = "A or O" ∧ t428 = "O and (A or B)" ∧
      t429 = "A or O" ∧ t431 = "O and (A or B)" then ("A", "AO", "AO1")
  else if t6 = "A or B or O" ∧ t422 = "A or O" ∧ t428 = "O2 and (O or A or B)" ∧
      t429 = "A or O" ∧ t431 = "O and (A or B)" then ("A", "AO", "AO2")
  else if t6 = "A or B or O" ∧ t422 = "A or O" ∧ t428 = "O and (A or B)" ∧
      t429 = "A or O" ∧ t431 = "O3 and (O or A or B)" then ("A", "AO", "AO3")
  else if t6 = "O1 and (A or B or O)" ∧ t422 = "B" ∧ t428 = "O and (A or B)" ∧
      t429 = "B" ∧ t431 = "O and (A or B)" then ("B", "BO", "BO1")
  else if t6 = "A or B or O" ∧ t422 = "B" ∧ t428 = "O2 and (O or A or B)" ∧
      t429 = "B" ∧ t431 = "O and (A or B)" then ("B", "BO", "BO2")
  else if t6 = "A or B or O" ∧ t422 = "B" ∧ t428 = "O and (A or B)" ∧
      t429 = "B" ∧ t431 = "O3 and (O or A or B)" then ("B", "BO", "BO3")
  else if t6 = "O1" ∧ t422 = "A or O" ∧ t428 = "O2" ∧
      t429 = "A or O" ∧ t431 = "O and (A or B)" then ("O", "OO", "O1O2")
  else if t6 = "O1" ∧ t422 = "A or O" ∧ t428 = "O and (A or B)" ∧
      t429 = "A or O" ∧ t431 = "O3" then ("O", "OO", "O1O3")
  else if t6 = "A or B or O" ∧ t422 = "A or O" ∧ t428 = "O2" ∧
      t429 = "A or O" ∧ t431 = "O3" then ("O", "OO", "O2O3")
  else if t6 = "O1" ∧ t422 = "A or O" ∧ t428 = "O and (A or B)" ∧
      t429 = "A or O" ∧ t431 = "O and (A or B)" then ("O", "OO", "O1O1")
  else if t6 = "A or B or O" ∧ t422 = "A or O" ∧ t428 = "O2" ∧
      t429 = "A or O" ∧ t431 = "O and (A or B)" then ("O", "OO", "O2O2")
  else if t6 = "A or B or O" ∧ t422 = "A or O" ∧ t428 = "O and (A or B)" ∧
      t429 = "A or O" ∧ t431 = "O3" then ("O", "OO", "O3O3")
  else if t6 = "A or B or O" ∧ t422 = "A or O" ∧ t428 = "O and (A or B)" ∧
      t429 = "A or O" ∧ t431 = "O and (A or B)" then ("A", "AA", assign_a_subtype subs)
  else if t6 = "A or B or O" ∧ t422 = "B" ∧ t428 = "O and (A or B)" ∧
      t429 = "B" ∧ t431 = "O and (A or B)" then ("B", "BB", "BB")
  else if t6 = "A or B or O" ∧ t422 = "(A or O) and B" ∧ t428 = "O and (A or B)" ∧
      t429 = "(A or O) and B" ∧ t431 = "O and (A or B)" then ("AB", "AB", "AB")
  else ("Unknown", "Unknown", "Unknown")

/-- The reliability grading from the five primary read counts: drop NaN and
non-positive entries; grade the minimum of what remains. -/
def computeReliability (reads : List RCell) : String :=
  let kept := reads.filterMap (fun r =>
    match r with
    | RCell.val q => if 0 < q then some q else none
    | _ => none)
  match kept with
  | [] => "Unknown (no read data)"
  | q :: qs =>
    let m := qs.foldl min q
    if m ≤ 20 then "Very Low(≤20 reads)"
    else if m < 50 then "Low (≤50 reads)"
    else if m ≥ 500 then "Robust(≥500 reads)"
    else "Normal"

/-- The cells of the sample DataFrame consulted by
`assign_phenotype_genotype`. -/
structure TypeTable where
  t22 : PCell
  t422 : PCell
  t428 : PCell
  t429 : PCell
  t431 : PCell
  r22 : RCell
  r422 : RCell
  r428 : RCell
  r429 : RCell
  r431 : RCell
  s27 : PCell
  s29 : PCell
  s58 : PCell
  s467 : PCell
  s539 : PCell
  s646 : PCell
  s681 : PCell
  s745 : PCell
  s820 : PCell
  s1054 : PCell
  s1061 : PCell
deriving DecidableEq, Repr

/-- The four scalars the resolver attaches to the sample. -/
structure GResult where
  phenotype : String
  genotype : String
  extendedGenotype : String
  reliability : String
deriving DecidableEq, Repr

/-- The `except` branch of `assign_phenotype_genotype`. -/
def errorResult : GResult := ⟨"Error", "Error", "Error", "Error processing"⟩

/-- `assign_phenotype_genotype`: the function first reads the ten mandatory
cells with `df.at`; a missing column raises, which the `except` branch turns
into the Error result (equivalently: the Error result exactly when one of the
ten is missing).  Otherwise it resolves the primary 5-tuple with the subtype
refinement and grades reliability.  A NaN cell reads as the string `"nan"`,
matching `x == "..."` being false and `str(x) == "nan"` for `float('nan')`. -/
def assign_phenotype_genotype (tbl : TypeTable) : GResult :=
  if tbl.t22 = PCell.missing ∨ tbl.t422 = PCell.missing ∨ tbl.t428 = PCell.missing ∨
      tbl.t429 = PCell.missing ∨ tbl.t431 = PCell.missing ∨ tbl.r22 = RCell.missing ∨
      tbl.r422 = RCell.missing ∨ tbl.r428 = RCell.missing ∨ tbl.r429 = RCell.missing ∨
      tbl.r431 = RCell.missing then errorResult
  else
    let subs : Subtypes :=
      ⟨tbl.s27.guarded, tbl.s29.guarded, tbl.s58.guarded, tbl.s467.guarded,
        tbl.s539.guarded, tbl.s646.guarded, tbl.s681.guarded, tbl.s745.guarded,
        tbl.s820.guarded, tbl.s1054.guarded, tbl.s1061.guarded⟩
    let r := assign_phenotype_genotype_core tbl.t22.guarded tbl.t422.guarded
      tbl.t428.guarded tbl.t429.guarded tbl.t431.guarded subs
    ⟨r.1, r.2.1, r.2.2,
      computeReliability [tbl.r22, tbl.r422, tbl.r428, tbl.r429, tbl.r431]⟩

/-! ## Specification-side definitions

These definitions transcribe the *specification's* wording (ordered
threshold-rule tables, expected zero-record classifications, concrete
witness inputs); they are compared against the code-derived definitions
above. -/

/-- First-match-wins evaluation of an ordered `(predicate, label)` rule list;
`""` when no rule fires (the spec's classifier contract). -/
def firstMatchLabel : List (Bool × String) → String
  | [] => ""
  | (b, l) :: rest => if b then l else firstMatchLabel rest

/-- The position-261 rule list exactly as the claim states it:
`G ≥ 80`, then `Del ≥ 80`, then "both in (20,80) or sum ≥ 20". -/
def claimed_rules_261 (g dele : ℚ) : List (Bool × String) :=
  [(decide (g ≥ 80), "A or B or O"),
   (decide (dele ≥ 80), "O1"),
   (decide ((20 < g ∧ g < 80 ∧ 20 < dele ∧ dele < 80) ∨ g + dele ≥ 20),
     "O1 and (A or B or O)")]

/-- The position-261 rule list as the code actually orders and guards it:
the two high-threshold rules additionally require strict dominance over the
competing percentage. -/
def amended_rules_261 (g dele : ℚ) : List (Bool × String) :=
  [(decide (g ≥ 80 ∧ g > dele), "A or B or O"),
   (decide (dele ≥ 80 ∧ dele > g), "O1"),
   (decide (|g + dele| ≥ 20 ∨ (20 < dele ∧ dele < 80 ∧ 20 < g ∧ g < 80)),
     "O1 and (A or B or O)")]

/-- What an all-zero record actually classifies to at each required exon-7
position: the four primary positions fall into their `|x−y| ≤ 20`
ambiguous band at zero, the eight subtype positions classify to `""`. -/
def zero_record_type_exon7 (p : Int) : String :=
  if p = 422 ∨ p = 429 then "(A or O) and B"
  else if p = 428 then "O2 and (O or A or B)"
  else if p = 431 then "O3 and (O or A or B)"
  else ""

/-- A read-count cell carrying no positive read count (NaN or `≤ 0`). -/
def RCell.noReads : RCell → Bool
  | .val q => decide (q ≤ 0)
  | _ => true

/-- Witness table for the round-trip claim: 134 rows at positions `1..134`,
with depth `7` at position `5` and depth `50` elsewhere. -/
def c7SampleTable : List MStats :=
  (List.range 134).map
    (fun i => ⟨(i + 1 : Nat), "A", 100, 0, 0, 0, 100, 0, 0, 0,
      if i = 4 then 7 else 50⟩)

/-- A single-row table (fewer than 134 rows). -/
def c7TinyTable : List MStats := [⟨5, "A", 100, 0, 0, 0, 100, 0, 0, 0, 7⟩]

/-- A resolver input whose mandatory position-22 `Type` column is absent
(`df.at` raises on it). -/
def c8Table : TypeTable :=
  ⟨PCell.missing, PCell.str "", PCell.str "", PCell.str "", PCell.str "",
    RCell.val 1, RCell.val 1, RCell.val 1, RCell.val 1, RCell.val 1,
    PCell.str "", PCell.str "", PCell.str "", PCell.str "", PCell.str "",
    PCell.str "", PCell.str "", PCell.str "", PCell.str "", PCell.str "",
    PCell.str ""⟩

/-! ## Supporting lemmas -/

theorem digitVal_digitChar {d : Nat} (h : d < 10) : digitVal (digitChar d) = d := by
  interval_cases d <;> rfl

theorem isDigit_digitChar (d : Nat) : (digitChar d).isDigit = true := by
  unfold digitChar
  split <;> rfl

theorem natReprAux_ne_nil : ∀ fuel n, n < fuel → natReprAux fuel n ≠ [] := by
  intro fuel
  induction fuel with
  | zero => omega
  | succ f ih =>
    intro n _
    rw [natReprAux]
    split
    · simp
    · simp

theorem natRepr_ne_nil (n : Nat) : natRepr n ≠ [] :=
  natReprAux_ne_nil (n + 1) n (by omega)

theorem natReprAux_all_digit : ∀ fuel n, n < fuel →
    (natReprAux fuel n).all Char.isDigit = true := by
  intro fuel
  induction fuel with
  | zero => omega
  | succ f ih =>
    intro n hn
    rw [natReprAux]
    split
    · simp [isDigit_digitChar]
    · rename_i h
      rw [List.all_append, ih (n / 10) (by omega)]
      simp [isDigit_digitChar]

theorem natRepr_all_digit (n : Nat) : (natRepr n).all Char.isDigit = true :=
  natReprAux_all_digit (n + 1) n (by omega)

theorem foldl_digits_append (xs : List Char) (c : Char) (a : Nat) :
    (xs ++ [c]).foldl (fun a c => a * 10 + digitVal c) a =
      (xs.foldl (fun a c => a * 10 + digitVal c) a) * 10 + digitVal c := by
  simp [List.foldl_append]

theorem foldl_natReprAux : ∀ fuel n, n < fuel →
    (natReprAux fuel n).foldl (fun a c => a * 10 + digitVal c) 0 = n := by
  intro fuel
  induction fuel with
  | zero => omega
  | succ f ih =>
    intro n hn
    rw [natReprAux]
    split
    · rename_i h
      simp [List.foldl, digitVal_digitChar h]
    · rename_i h
      rw [foldl_digits_append, ih (n / 10) (by omega),
        digitVal_digitChar (Nat.mod_lt _ (by omega))]
      omega

theorem foldl_natRepr (n : Nat) :
    (natRepr n).foldl (fun a c => a * 10 + digitVal c) 0 = n :=
  foldl_natReprAux (n + 1) n (by omega)

theorem parseNat?_natRepr (n : Nat) : parseNat? (natRepr n) = some n := by
  unfold parseNat?
  rw [if_pos ⟨natRepr_ne_nil n, natRepr_all_digit n⟩, foldl_natRepr]

theorem head_natRepr_ne_minus (n : Nat) {c : Char} {cs : List Char}
    (h : natRepr n = c :: cs) : c ≠ '-' := by
  have hall := natRepr_all_digit n
  rw [h] at hall
  simp only [List.all_cons, Bool.and_eq_true] at hall
  intro hc
  rw [hc] at hall
  exact absurd hall.1 (by decide)

theorem pyIntList?_cons_of_ne {c : Char} (cs : List Char) (hc : c ≠ '-') :
    pyIntList? (c :: cs) = (parseNat? (c :: cs)).map (fun (m : Nat) => (m : Int)) := by
  unfold pyIntList?
  split
  · rename_i heq
    rw [List.cons.injEq] at heq
    exact absurd heq.1 hc
  · rfl

theorem pyInt?_pyStr (n : Int) : pyInt? (pyStr n) = some n := by
  by_cases h : n < 0
  · have : pyInt? (pyStr n) = (parseNat? (natRepr n.natAbs)).map (fun (m : Nat) => -(m : Int)) := by
      rw [pyStr, if_pos h]
      rfl
    rw [this, parseNat?_natRepr, Option.map_some']
    congr 1
    omega
  · have hdata : (pyStr n).data = natRepr n.natAbs := by
      rw [pyStr, if_neg h]
    rcases he : natRepr n.natAbs with _ | ⟨c, cs⟩
    · exact absurd he (natRepr_ne_nil _)
    · have hc := head_natRepr_ne_minus _ he
      rw [pyInt?, hdata, he, pyIntList?_cons_of_ne _ hc, ← he, parseNat?_natRepr,
        Option.map_some']
      congr 1
      omega

theorem pyFloat?_pyStr (n : Int) : pyFloat? (pyStr n) = some (n : ℚ) := by
  rw [pyFloat?, pyInt?_pyStr, Option.map_some']

theorem parseFreqRow_write_stats_fields (s : MStats) :
    parseFreqRow (write_stats_fields s) = some (reparsedRow s) := by
  simp [parseFreqRow, write_stats_fields, List.getD, List.get?, pyInt?_pyStr,
    pyFloat?_pyStr, reparsedRow]



theorem bumpBase_sum {k k2 : PileCounts} {key : String}
    (h : bumpBase k key = some k2) :
    k2.a + k2.g + k2.c + k2.t = k.a + k.g + k.c + k.t + 1 ∧
      k2.matchCount = k.matchCount ∧ k2.mismatchCount = k.mismatchCount ∧
      k2.insertions = k.insertions ∧ k2.deletions = k.deletions := by
  unfold bumpBase at h
  split_ifs at h <;> cases h <;> refine ⟨by dsimp only; omega, rfl, rfl, rfl, rfl⟩

theorem bumpBase_isSome (k : PileCounts) {key : String}
    (h : key = "A" ∨ key = "C" ∨ key = "G" ∨ key = "T") :
    (bumpBase k key).isSome = true := by
  unfold bumpBase
  rcases h with h | h | h | h <;> subst h <;> simp

/-- Fuel does not matter as long as it exceeds the list length. -/
theorem scanAux_congr (ref : String) :
    ∀ f1 f2 cs, cs.length < f1 → cs.length < f2 →
      scanAux ref f1 cs = scanAux ref f2 cs := by
  intro f1
  induction f1 using Nat.strong_induction_on with
  | _ f1 ih =>
    intro f2 cs h1 h2
    cases cs with
    | nil =>
      cases f1 with
      | zero => omega
      | succ g1 =>
        cases f2 with
        | zero => omega
        | succ g2 => rfl
    | cons ch rest =>
      cases f1 with
      | zero => omega
      | succ g1 =>
        cases f2 with
        | zero => omega
        | succ g2 =>
          have hr1 : rest.length < g1 := by
            simp only [List.length_cons] at h1
            omega
          have hr2 : rest.length < g2 := by
            simp only [List.length_cons] at h2
            omega
          have hdw : ((rest.dropWhile Char.isDigit).drop
              ((parseNat? (rest.takeWhile Char.isDigit)).getD 0)).length ≤ rest.length := by
            have hd1 : (rest.dropWhile Char.isDigit).length ≤ rest.length := by
              clear h1 h2 hr1 hr2 ih
              induction rest with
              | nil => simp
              | cons c cs ihr =>
                rw [List.dropWhile_cons]
                split
                · simp only [List.length_cons]
                  omega
                · simp
            rw [List.length_drop]
            omega
          have e1 : scanAux ref g1 rest = scanAux ref g2 rest :=
            ih g1 (by omega) g2 rest hr1 hr2
          have e2 : scanAux ref g1 ((rest.dropWhile Char.isDigit).drop
                ((parseNat? (rest.takeWhile Char.isDigit)).getD 0)) =
              scanAux ref g2 ((rest.dropWhile Char.isDigit).drop
                ((parseNat? (rest.takeWhile Char.isDigit)).getD 0)) :=
            ih g1 (by omega) g2 _ (by omega) (by omega)
          simp only [scanAux, e1, e2]

/-- Scanning invariant: nucleotide tallies account exactly for the match and
mismatch events. -/
theorem scanAux_bases_eq (ref : String) :
    ∀ fuel cs k, scanAux ref fuel cs = some k →
      k.a + k.g + k.c + k.t = k.matchCount + k.mismatchCount := by
  intro fuel
  induction fuel with
  | zero => intro cs k h; simp [scanAux] at h
  | succ f ih =>
    intro cs k h
    cases cs with
    | nil =>
      simp only [scanAux] at h
      cases h
      rfl
    | cons ch rest =>
      simp only [scanAux] at h
      split_ifs at h
      · rcases Option.bind_eq_some.mp h with ⟨k1, hk1, hb⟩
        rcases Option.map_eq_some'.mp hb with ⟨k2, hk2, hk⟩
        subst hk
        have h1 := ih rest k1 hk1
        have h2 := bumpBase_sum hk2
        simp only
        omega
      · rcases Option.bind_eq_some.mp h with ⟨k1, hk1, hb⟩
        rcases Option.map_eq_some'.mp hb with ⟨k2, hk2, hk⟩
        subst hk
        have h1 := ih rest k1 hk1
        have h2 := bumpBase_sum hk2
        simp only
        omega
      · rcases Option.map_eq_some'.mp h with ⟨k1, hk1, hk⟩
        subst hk
        have h1 := ih _ k1 hk1
        simpa using h1
      · rcases Option.map_eq_some'.mp h with ⟨k1, hk1, hk⟩
        subst hk
        have h1 := ih _ k1 hk1
        simpa using h1
      · rcases Option.map_eq_some'.mp h with ⟨k1, hk1, hk⟩
        subst hk
        have h1 := ih _ k1 hk1
        simpa using h1
      · exact ih _ _ h

/-- The scan never fails when the reference base is a proper nucleotide. -/
theorem scanAux_isSome (ref : String)
    (href : ref = "A" ∨ ref = "C" ∨ ref = "G" ∨ ref = "T") :
    ∀ fuel cs, cs.length < fuel → (scanAux ref fuel cs).isSome = true := by
  intro fuel
  induction fuel with
  | zero => omega
  | succ f ih =>
    intro cs h
    cases cs with
    | nil => simp [scanAux]
    | cons ch rest =>
      have hr : rest.length < f := by
        simp only [List.length_cons] at h
        omega
      simp only [scanAux]
      split_ifs with h1 h2 h3 h4 h5
      · rcases Option.isSome_iff_exists.mp (ih rest hr) with ⟨k1, hk1⟩
        rw [hk1]
        rcases Option.isSome_iff_exists.mp (bumpBase_isSome k1 href) with ⟨k2, hk2⟩
        simp [hk2]
      · rcases Option.isSome_iff_exists.mp (ih rest hr) with ⟨k1, hk1⟩
        rw [hk1]
        have hkey : String.mk [ch.toUpper] = "A" ∨ String.mk [ch.toUpper] = "C" ∨
            String.mk [ch.toUpper] = "G" ∨ String.mk [ch.toUpper] = "T" := by
          rcases h2 with h2 | h2 | h2 | h2 <;> rw [h2] <;> simp
        rcases Option.isSome_iff_exists.mp (bumpBase_isSome k1 hkey) with ⟨k2, hk2⟩
        simp [hk2]
      · have hd1 : (rest.dropWhile Char.isDigit).length ≤ rest.length := by
          clear h ih hr h1 h2 h3
          induction rest with
          | nil => simp
          | cons c cs ihr =>
            rw [List.dropWhile_cons]
            split
            · simp only [List.length_cons]
              omega
            · simp
        have : ((rest.dropWhile Char.isDigit).drop
            ((parseNat? (rest.takeWhile Char.isDigit)).getD 0)).length < f := by
          rw [List.length_drop]
          omega
        rcases Option.isSome_iff_exists.mp (ih _ this) with ⟨k1, hk1⟩
        simp [hk1]
      · have hd1 : (rest.dropWhile Char.isDigit).length ≤ rest.length := by
          clear h ih hr h1 h2 h3 h4
          induction rest with
          | nil => simp
          | cons c cs ihr =>
            rw [List.dropWhile_cons]
            split
            · simp only [List.length_cons]
              omega
            · simp
        have : ((rest.dropWhile Char.isDigit).drop
            ((parseNat? (rest.takeWhile Char.isDigit)).getD 0)).length < f := by
          rw [List.length_drop]
          omega
        rcases Option.isSome_iff_exists.mp (ih _ this) with ⟨k1, hk1⟩
        simp [hk1]
      · rcases Option.isSome_iff_exists.mp (ih rest hr) with ⟨k1, hk1⟩
        simp [hk1]
      · exact ih rest hr

theorem scanReadBases_bases_eq {ref : String} {cs : List Char} {k : PileCounts}
    (h : scanReadBases ref cs = some k) :
    k.a + k.g + k.c + k.t = k.matchCount + k.mismatchCount :=
  scanAux_bases_eq ref _ cs k h

theorem scanReadBases_isSome {ref : String} (cs : List Char)
    (href : ref = "A" ∨ ref = "C" ∨ ref = "G" ∨ ref = "T") :
    (scanReadBases ref cs).isSome = true :=
  scanAux_isSome ref href _ cs (by omega)

/-- Splitting a digit run followed by a non-digit-headed tail. -/
theorem span_digits (ds x : List Char) (hds : ds.all Char.isDigit = true)
    (hx : x.takeWhile Char.isDigit = []) :
    (ds ++ x).takeWhile Char.isDigit = ds ∧
      (ds ++ x).dropWhile Char.isDigit = x := by
  induction ds with
  | nil =>
    refine ⟨by simpa using hx, ?_⟩
    have h := x.takeWhile_append_dropWhile Char.isDigit
    rw [hx] at h
    simpa using h
  | cons c cs ih =>
    simp only [List.all_cons, Bool.and_eq_true] at hds
    have ihh := ih hds.2
    refine ⟨?_, ?_⟩
    · rw [List.cons_append, List.takeWhile_cons, if_pos hds.1, ihh.1]
    · rw [List.cons_append, List.dropWhile_cons, if_pos hds.1, ihh.2]

theorem addBase_sum {bp bp2 : BasePcts} {key : String} {diff : Int}
    (h : addBase bp key diff = some bp2) :
    bp2.a + bp2.g + bp2.c + bp2.t = bp.a + bp.g + bp.c + bp.t + diff := by
  unfold addBase at h
  split_ifs at h <;> cases h <;> dsimp only <;> ring

theorem lookupBase_isSome (bp : BasePcts) {key : String}
    (h : key = "A" ∨ key = "C" ∨ key = "G" ∨ key = "T") :
    (lookupBase bp key).isSome = true := by
  unfold lookupBase
  rcases h with h | h | h | h <;> subst h <;> simp

theorem addBase_isSome (bp : BasePcts) (diff : Int) {key : String}
    (h : key = "A" ∨ key = "C" ∨ key = "G" ∨ key = "T") :
    (addBase bp key diff).isSome = true := by
  unfold addBase
  rcases h with h | h | h | h <;> subst h <;> simp

/-- Floor percentages of a four-way partition of the denominator sum to at
most 100 and to more than 0. -/
theorem pct_partition_bounds (c1 c2 c3 c4 d : Nat) (hd : d ≠ 0)
    (hsum : c1 + c2 + c3 + c4 = d) :
    c1 * 100 / d + c2 * 100 / d + c3 * 100 / d + c4 * 100 / d ≤ 100 ∧
      0 < c1 * 100 / d + c2 * 100 / d + c3 * 100 / d + c4 * 100 / d := by
  have hdpos : 0 < d := Nat.pos_of_ne_zero hd
  constructor
  · have le2 : ∀ a b : Nat, a / d + b / d ≤ (a + b) / d := by
      intro a b
      rw [Nat.le_div_iff_mul_le hdpos]
      calc (a / d + b / d) * d = a / d * d + b / d * d := by ring
        _ ≤ a + b := Nat.add_le_add (Nat.div_mul_le_self a d) (Nat.div_mul_le_self b d)
    have h12 := le2 (c1 * 100) (c2 * 100)
    have h123 := le2 (c1 * 100 + c2 * 100) (c3 * 100)
    have h1234 := le2 (c1 * 100 + c2 * 100 + c3 * 100) (c4 * 100)
    have heq : (c1 * 100 + c2 * 100 + c3 * 100 + c4 * 100) / d = 100 := by
      have : c1 * 100 + c2 * 100 + c3 * 100 + c4 * 100 = d * 100 := by omega
      rw [this, Nat.mul_div_cancel_left 100 hdpos]
    linarith [h12, h123, h1234, heq.le]
  · by_contra h0
    have hs : c1 * 100 / d + c2 * 100 / d + c3 * 100 / d + c4 * 100 / d = 0 :=
      Nat.le_zero.mp (Nat.not_lt.mp h0)
    have e1 : c1 * 100 / d = 0 := by
      rcases Nat.add_eq_zero.mp hs with ⟨h', _⟩
      rcases Nat.add_eq_zero.mp h' with ⟨h'', _⟩
      exact (Nat.add_eq_zero.mp h'').1
    have e2 : c2 * 100 / d = 0 := by
      rcases Nat.add_eq_zero.mp hs with ⟨h', _⟩
      rcases Nat.add_eq_zero.mp h' with ⟨h'', _⟩
      exact (Nat.add_eq_zero.mp h'').2
    have e3 : c3 * 100 / d = 0 := by
      rcases Nat.add_eq_zero.mp hs with ⟨h', _⟩
      exact (Nat.add_eq_zero.mp h').2
    have e4 : c4 * 100 / d = 0 := (Nat.add_eq_zero.mp hs).2
    have l1 : c1 * 100 < d := (Nat.div_eq_zero_iff hdpos).mp e1
    have l2 : c2 * 100 < d := (Nat.div_eq_zero_iff hdpos).mp e2
    have l3 : c3 * 100 < d := (Nat.div_eq_zero_iff hdpos).mp e3
    have l4 : c4 * 100 < d := (Nat.div_eq_zero_iff hdpos).mp e4
    omega

theorem computeReliability_noReads (rs : List RCell)
    (h : rs.all RCell.noReads = true) :
    computeReliability rs = "Unknown (no read data)" := by
  unfold computeReliability
  have he : rs.filterMap (fun r =>
      match r with
      | RCell.val q => if 0 < q then some q else none
      | _ => none) = [] := by
    induction rs with
    | nil => rfl
    | cons r rest ih =>
      simp only [List.all_cons, Bool.and_eq_true] at h
      rw [List.filterMap_cons]
      cases r with
      | missing => exact ih h.2
      | nanv => exact ih h.2
      | val q =>
        have hq : ¬(0 < q) := by
          have := h.1
          simp only [RCell.noReads, decide_eq_true_eq] at this
          exact not_lt.mpr this
        simp only [if_neg hq]
        exact ih h.2
  rw [he]

theorem not_and5_of_tuple_ne {a b c d e x1 x2 x3 x4 x5 : String}
    (h : (a, b, c, d, e) ≠ (x1, x2, x3, x4, x5)) :
    ¬(a = x1 ∧ b = x2 ∧ c = x3 ∧ d = x4 ∧ e = x5) := by
  rintro ⟨h1, h2, h3, h4, h5⟩
  exact h (by rw [h1, h2, h3, h4, h5])

/-- A primary 5-tuple outside the pattern list falls through all fifteen
branches. -/
theorem core_unmatched {t6 u422 u428 u429 u431 : String} (subs : Subtypes)
    (h : (t6, u422, u428, u429, u431) ∉ primary_patterns) :
    assign_phenotype_genotype_core t6 u422 u428 u429 u431 subs =
      ("Unknown", "Unknown", "Unknown") := by
  simp only [primary_patterns, List.mem_cons, List.not_mem_nil, or_false, not_or] at h
  obtain ⟨h1, h2, h3, h4, h5, h6, h7, h8, h9, h10, h11, h12, h13, h14, h15⟩ := h
  unfold assign_phenotype_genotype_core
  rw [if_neg (not_and5_of_tuple_ne h1), if_neg (not_and5_of_tuple_ne h2),
    if_neg (not_and5_of_tuple_ne h3), if_neg (not_and5_of_tuple_ne h4),
    if_neg (not_and5_of_tuple_ne h5), if_neg (not_and5_of_tuple_ne h6),
    if_neg (not_and5_of_tuple_ne h7), if_neg (not_and5_of_tuple_ne h8),
    if_neg (not_and5_of_tuple_ne h9), if_neg (not_and5_of_tuple_ne h10),
    if_neg (not_and5_of_tuple_ne h11), if_neg (not_and5_of_tuple_ne h12),
    if_neg (not_and5_of_tuple_ne h13), if_neg (not_and5_of_tuple_ne h14),
    if_neg (not_and5_of_tuple_ne h15)]

/-- A required position with no row gets its zero row appended by the
completion loop. -/
theorem zero_mem_completion {required : List Int} {rows : List ExonRow} {p : Int}
    (hp : p ∈ required) (habs : ∀ r ∈ rows, r.pos ≠ p) :
    zeroExonRow p ∈ add_missing_positions required rows := by
  unfold add_missing_positions
  refine List.mem_append_right _ (List.mem_map.mpr ⟨p, List.mem_filter.mpr ⟨hp, ?_⟩, rfl⟩)
  simp only [List.all_eq_true, decide_eq_true_eq]
  exact habs

theorem get_type_zero (p : Int) (hp : p ∈ exon7_all_positions) :
    get_type p 0 0 0 0 = zero_record_type_exon7 p := by
  fin_cases hp <;> norm_num [get_type, zero_record_type_exon7]

theorem get_type_exon6_zero (p : Int) (hp : p ∈ exon6_all_positions) :
    get_type_exon6 p 0 0 0 0 0 = "" := by
  fin_cases hp <;> norm_num [get_type_exon6]

theorem statsFromCounts_shape {i : Bool} {pos cov : Int} {ref : String}
    {k : PileCounts} {out : MStats}
    (h : statsFromCounts i pos cov ref k = some out) :
    out = create_zero_stats pos ref ∨ (out.pos = pos ∧ out.depth = cov) := by
  simp only [statsFromCounts] at h
  split_ifs at h with h0 hinc hd hadj
  · cases h
    exact Or.inl rfl
  · unfold mkStats at h
    rcases Option.map_eq_some'.mp h with ⟨mp, hmp, hout⟩
    subst hout
    exact Or.inr ⟨rfl, rfl⟩
  · cases h
    exact Or.inl rfl
  · rcases Option.bind_eq_some.mp h with ⟨bp2, hbp2, hmk⟩
    unfold mkStats at hmk
    rcases Option.map_eq_some'.mp hmk with ⟨mp, hmp, hout⟩
    subst hout
    exact Or.inr ⟨rfl, rfl⟩
  · rcases Option.bind_eq_some.mp h with ⟨bp2, hbp2, hmk⟩
    unfold mkStats at hmk
    rcases Option.map_eq_some'.mp hmk with ⟨mp, hmp, hout⟩
    subst hout
    exact Or.inr ⟨rfl, rfl⟩

theorem statsFromCounts_exclude {pos cov : Int} {ref : String}
    {k : PileCounts} {out : MStats}
    (hst : statsFromCounts false pos cov ref k = some out)
    (hsum : k.a + k.g + k.c + k.t = k.matchCount + k.mismatchCount)
    (hdep : out.depth ≠ 0) :
    out.insertion_percent = 0 ∧ out.deletion_percent = 0 ∧
      out.a_percent + out.g_percent + out.c_percent + out.t_percent = 100 := by
  simp only [statsFromCounts, Bool.false_eq_true, if_false] at hst
  have hb : k.a * 100 / (k.matchCount + k.mismatchCount) +
        k.g * 100 / (k.matchCount + k.mismatchCount) +
        k.c * 100 / (k.matchCount + k.mismatchCount) +
        k.t * 100 / (k.matchCount + k.mismatchCount) ≤ 100 ∧
      0 < k.a * 100 / (k.matchCount + k.mismatchCount) +
        k.g * 100 / (k.matchCount + k.mismatchCount) +
        k.c * 100 / (k.matchCount + k.mismatchCount) +
        k.t * 100 / (k.matchCount + k.mismatchCount) →
      True := fun _ => trivial
  split_ifs at hst with h0 hd hadj
  · cases hst
    exact absurd rfl hdep
  · cases hst
    exact absurd rfl hdep
  · rcases Option.bind_eq_some.mp hst with ⟨bp2, hbp2, hmk⟩
    unfold mkStats at hmk
    rcases Option.map_eq_some'.mp hmk with ⟨mp, hmp, hout⟩
    subst hout
    refine ⟨rfl, rfl, ?_⟩
    show bp2.a + bp2.g + bp2.c + bp2.t = 100
    have hsum2 := addBase_sum hbp2
    rw [hsum2]
    ring

  · rcases Option.bind_eq_some.mp hst with ⟨bp2, hbp2, hmk⟩
    cases hbp2
    unfold mkStats at hmk
    rcases Option.map_eq_some'.mp hmk with ⟨mp, hmp, hout⟩
    subst hout
    refine ⟨rfl, rfl, ?_⟩
    show pctOf k.a (k.matchCount + k.mismatchCount) +
        pctOf k.g (k.matchCount + k.mismatchCount) +
        pctOf k.c (k.matchCount + k.mismatchCount) +
        pctOf k.t (k.matchCount + k.mismatchCount) = 100
    push_neg at hadj
    by_cases hs100 : pctOf k.a (k.matchCount + k.mismatchCount) +
        pctOf k.g (k.matchCount + k.mismatchCount) +
        pctOf k.c (k.matchCount + k.mismatchCount) +
        pctOf k.t (k.matchCount + k.mismatchCount) = 100
    · exact hs100
    · exfalso
      have hbnd := pct_partition_bounds k.a k.g k.c k.t
        (k.matchCount + k.mismatchCount) hd hsum
      have hle := hadj hs100
      have hcast : pctOf k.a (k.matchCount + k.mismatchCount) +
          pctOf k.g (k.matchCount + k.mismatchCount) +
          pctOf k.c (k.matchCount + k.mismatchCount) +
          pctOf k.t (k.matchCount + k.mismatchCount) =
          ((k.a * 100 / (k.matchCount + k.mismatchCount) +
            k.g * 100 / (k.matchCount + k.mismatchCount) +
            k.c * 100 / (k.matchCount + k.mismatchCount) +
            k.t * 100 / (k.matchCount + k.mismatchCount) : Nat) : Int) := by
        simp only [pctOf]
        push_cast
        ring
      rw [hcast] at hle
      have := hbnd.2
      omega

theorem statsFromCounts_isSome (i : Bool) (pos cov : Int) {ref : String}
    (k : PileCounts) (href : ref = "A" ∨ ref = "C" ∨ ref = "G" ∨ ref = "T") :
    (statsFromCounts i pos cov ref k).isSome = true := by
  rcases href with h | h | h | h <;> subst h <;>
    simp only [statsFromCounts] <;>
    split_ifs <;>
    simp [mkStats, lookupBase, addBase, Option.bind_some]

theorem reparsedRow_pos (s : MStats) : (reparsedRow s).pos = s.pos := rfl

theorem filter_key_unique :
    ∀ (tbl : List MStats) (s : MStats), s ∈ tbl → (tbl.map MStats.pos).Nodup →
      (tbl.map reparsedRow).filter (fun r => r.pos = s.pos) = [reparsedRow s] := by
  intro tbl
  induction tbl with
  | nil => intro s hs; simp at hs
  | cons t rest ih =>
    intro s hs hnd
    simp only [List.map_cons, List.nodup_cons] at hnd
    rcases List.mem_cons.mp hs with rfl | hmem
    · simp only [List.map_cons, List.filter_cons]
      rw [if_pos (by simp only [decide_eq_true_eq]; exact reparsedRow_pos s)]
      congr 1
      rw [List.filter_eq_nil_iff]
      intro x hx
      rcases List.mem_map.mp hx with ⟨r, hr, hxr⟩
      subst hxr
      simp only [reparsedRow_pos, decide_eq_true_eq]
      intro hcontra
      exact hnd.1 (List.mem_map.mpr ⟨r, hr, hcontra⟩)
    · have hne : t.pos ≠ s.pos := by
        intro hcontra
        exact hnd.1 (hcontra ▸ List.mem_map.mpr ⟨s, hmem, rfl⟩)
      simp only [List.map_cons, List.filter_cons]
      rw [if_neg (by simp [reparsedRow_pos, hne])]
      exact ih s hmem hnd.2

/-! ## Claims -/

/-- C1 (amended).  The assembly step of `parse_exon6`/`parse_exon7` inserts a
zero-valued record (all percentages and read count 0) for every one of the 16
required diagnostic positions absent from a sample's parsed report, and
classifying the zero record never raises; but it yields the empty marker call
`""` only at the twelve positions 22/27/29/58 (exon 6) and
467/539/646/681/745/820/1054/1061 (exon 7), while at the four primary exon-7
positions 422/428/429/431 the all-zero record falls into the `|x − y| ≤ 20`
ambiguous band and classifies to that band's label
(see `zero_record_type_exon7`), not to `""`. -/
theorem claim1_zero_record_completion :
    (∀ (rows : List ExonRow) (p : Int), p ∈ exon7_all_positions →
      (∀ r ∈ rows, r.pos ≠ p) →
      (zeroExonRow p, zero_record_type_exon7 p) ∈ parse_exon7_table rows) ∧
    (∀ (rows : List ExonRow) (p : Int), p ∈ exon6_all_positions →
      (∀ r ∈ rows, r.pos ≠ p) →
      (zeroExonRow p, "") ∈ parse_exon6_table rows) := by
  constructor
  · intro rows p hp habs
    unfold parse_exon7_table
    have hmem := zero_mem_completion hp habs
    have hmem2 : zeroExonRow p ∈
        (add_missing_positions exon7_all_positions rows).mergeSort
          (fun r s => r.pos ≤ s.pos) :=
      (List.mergeSort_perm _ _).mem_iff.mpr hmem
    refine List.mem_map.mpr ⟨zeroExonRow p, hmem2, ?_⟩
    have : get_type (zeroExonRow p).pos (zeroExonRow p).a (zeroExonRow p).g
        (zeroExonRow p).c (zeroExonRow p).t = zero_record_type_exon7 p := by
      show get_type p 0 0 0 0 = zero_record_type_exon7 p
      exact get_type_zero p hp
    rw [this]
  · intro rows p hp habs
    unfold parse_exon6_table
    have hmem := zero_mem_completion hp habs
    have hmem2 : zeroExonRow p ∈
        (add_missing_positions exon6_all_positions rows).mergeSort
          (fun r s => r.pos ≤ s.pos) :=
      (List.mergeSort_perm _ _).mem_iff.mpr hmem
    refine List.mem_map.mpr ⟨zeroExonRow p, hmem2, ?_⟩
    have : get_type_exon6 (zeroExonRow p).pos (zeroExonRow p).a (zeroExonRow p).g
        (zeroExonRow p).c (zeroExonRow p).t (zeroExonRow p).dele = "" := by
      show get_type_exon6 p 0 0 0 0 0 = ""
      exact get_type_exon6_zero p hp
    rw [this]

/-- C1 witness: with no parsed rows at all, position 422 (exon 7) and
position 22 (exon 6) both get zero rows with their computed types. -/
theorem claim1_witness :
    (422 : Int) ∈ exon7_all_positions ∧ (22 : Int) ∈ exon6_all_positions ∧
    (zeroExonRow 422, zero_record_type_exon7 422) ∈ parse_exon7_table [] ∧
    (zeroExonRow 22, "") ∈ parse_exon6_table [] :=
  ⟨by decide, by decide,
    claim1_zero_record_completion.1 [] 422 (by decide) (by intro r hr; simp at hr),
    claim1_zero_record_completion.2 [] 22 (by decide) (by intro r hr; simp at hr)⟩

/-- C1 counterexample: an all-zero record at primary position 422 classifies
to "(A or O) and B" (the |A − C| ≤ 20 ambiguous band), not to the empty
marker call the claim asserts for every one of the 16 positions. -/
theorem claim1_counterexample :
    get_type 422 0 0 0 0 = "(A or O) and B" ∧ get_type 422 0 0 0 0 ≠ "" := by
  have h : get_type 422 0 0 0 0 = "(A or O) and B" := by norm_num [get_type]
  exact ⟨h, by rw [h]; decide⟩

/-- C2 (amended).  For position 261 (exon 6 position 22) and every percentage
vector, the classifier is first-match-wins over the ordered rules: "A or B
or O" when G ≥ 80 AND G > Del; otherwise "O1" when Del ≥ 80 AND Del > G;
otherwise "O1 and (A or B or O)" when |G + Del| ≥ 20 or G and Del both lie
in the open interval (20, 80); otherwise "".  (The claim omitted the strict
dominance guards G > Del and Del > G that the code places on the first two
rules; for decoded records, whose percentages satisfy G + Del ≤ 100, the
guards are vacuous.) -/
theorem claim2_position261_rules : ∀ a g c t dele : ℚ,
    get_type_exon6 22 a g c t dele = firstMatchLabel (amended_rules_261 g dele) := by
  intro a g c t dele
  simp only [get_type_exon6, amended_rules_261, firstMatchLabel, decide_eq_true_eq]
  by_cases h1 : g ≥ 80 ∧ g > dele
  · simp [h1]
  · by_cases h2 : dele ≥ 80 ∧ dele > g
    · simp [h1, h2]
    · by_cases h3 : |g + dele| ≥ 20
      · simp [h1, h2, h3]
      · by_cases h4 : 20 < dele ∧ dele < 80 ∧ 20 < g ∧ g < 80
        · simp [h1, h2, h3, h4]
        · simp [h1, h2, h3, h4]

/-- C2 counterexample: at the percentage vector G = 80, Del = 80 the claimed
rule list (first rule `G ≥ 80` with no dominance guard) returns "A or B or
O", but the code returns "O1 and (A or B or O)" because its first rule also
requires G > Del. -/
theorem claim2_counterexample :
    get_type_exon6 22 0 80 0 0 80 = "O1 and (A or B or O)" ∧
      firstMatchLabel (claimed_rules_261 80 80) = "A or B or O" ∧
      ("O1 and (A or B or O)" : String) ≠ "A or B or O" :=
  ⟨by norm_num [get_type_exon6],
    by norm_num [claimed_rules_261, firstMatchLabel], by decide⟩

/-- C3.  Resolving the primary marker-call 5-tuple ("O1 and (A or B or O)",
"A or O", "O and (A or B)", "A or O", "O and (A or B)") for positions
(261, 796, 802, 803, 805) yields Phenotype "A", Genotype "AO",
ExtendedGenotype "AO1", whatever the subtype marker calls are. -/
theorem claim3_resolve_AO1 : ∀ subs : Subtypes,
    assign_phenotype_genotype_core "O1 and (A or B or O)" "A or O" "O and (A or B)"
      "A or O" "O and (A or B)" subs = ("A", "AO", "AO1") := fun _ => rfl

/-- C4.  Every primary marker-call 5-tuple matching none of the 15 enumerated
patterns — in particular the all-empty tuple — resolves to
Phenotype/Genotype/ExtendedGenotype "Unknown" without raising, and when no
primary position has a positive read count the Reliability tier is Unknown
(rendered by the code as the string "Unknown (no read data)"). -/
theorem claim4_unmatched_unknown :
    ∀ (t6 u422 u428 u429 u431 : String)
      (r1 r2 r3 r4 r5 : RCell)
      (s1 s2 s3 s4 s5 s6 s7 s8 s9 s10 s11 : PCell),
      (t6, u422, u428, u429, u431) ∉ primary_patterns →
      r1 ≠ RCell.missing → r2 ≠ RCell.missing → r3 ≠ RCell.missing →
      r4 ≠ RCell.missing → r5 ≠ RCell.missing →
      (assign_phenotype_genotype
          ⟨PCell.str t6, PCell.str u422, PCell.str u428, PCell.str u429, PCell.str u431,
            r1, r2, r3, r4, r5, s1, s2, s3, s4, s5, s6, s7, s8, s9, s10, s11⟩).phenotype
          = "Unknown" ∧
      (assign_phenotype_genotype
          ⟨PCell.str t6, PCell.str u422, PCell.str u428, PCell.str u429, PCell.str u431,
            r1, r2, r3, r4, r5, s1, s2, s3, s4, s5, s6, s7, s8, s9, s10, s11⟩).genotype
          = "Unknown" ∧
      (assign_phenotype_genotype
          ⟨PCell.str t6, PCell.str u422, PCell.str u428, PCell.str u429, PCell.str u431,
            r1, r2, r3, r4, r5, s1, s2, s3, s4, s5, s6, s7, s8, s9, s10, s11⟩).extendedGenotype
          = "Unknown" ∧
      ([r1, r2, r3, r4, r5].all RCell.noReads = true →
        (assign_phenotype_genotype
            ⟨PCell.str t6, PCell.str u422, PCell.str u428, PCell.str u429, PCell.str u431,
              r1, r2, r3, r4, r5, s1, s2, s3, s4, s5, s6, s7, s8, s9, s10, s11⟩).reliability
            = "Unknown (no read data)") := by
  intro t6 u422 u428 u429 u431 r1 r2 r3 r4 r5 s1 s2 s3 s4 s5 s6 s7 s8 s9 s10 s11
  intro hpat h1 h2 h3 h4 h5
  have hcond : ¬(PCell.str t6 = PCell.missing ∨ PCell.str u422 = PCell.missing ∨
      PCell.str u428 = PCell.missing ∨ PCell.str u429 = PCell.missing ∨
      PCell.str u431 = PCell.missing ∨ r1 = RCell.missing ∨ r2 = RCell.missing ∨
      r3 = RCell.missing ∨ r4 = RCell.missing ∨ r5 = RCell.missing) := by
    rintro (h | h | h | h | h | h | h | h | h | h) <;> simp_all
  unfold assign_phenotype_genotype
  rw [if_neg hcond]
  have hcore := core_unmatched
    (⟨s1.guarded, s2.guarded, s3.guarded, s4.guarded, s5.guarded, s6.guarded,
      s7.guarded, s8.guarded, s9.guarded, s10.guarded, s11.guarded⟩ : Subtypes) hpat
  have gstr : ∀ s : String, (PCell.str s).guarded = s := fun _ => rfl
  refine ⟨?_, ?_, ?_, ?_⟩
  · simp only [gstr, hcore]
  · simp only [gstr, hcore]
  · simp only [gstr, hcore]
  · intro hr
    simp only [gstr, hcore]
    exact computeReliability_noReads _ hr

/-- C4 witness: the all-empty 5-tuple with five zero read counts. -/
theorem claim4_witness :
    (("", "", "", "", "") :
        String × String × String × String × String) ∉ primary_patterns ∧
    (assign_phenotype_genotype
        ⟨PCell.str "", PCell.str "", PCell.str "", PCell.str "", PCell.str "",
          RCell.val 0, RCell.val 0, RCell.val 0, RCell.val 0, RCell.val 0,
          PCell.str "", PCell.str "", PCell.str "", PCell.str "", PCell.str "",
          PCell.str "", PCell.str "", PCell.str "", PCell.str "", PCell.str "",
          PCell.str ""⟩).phenotype = "Unknown" ∧
    ([RCell.val 0, RCell.val 0, RCell.val 0, RCell.val 0,
        RCell.val (0 : ℚ)].all RCell.noReads = true →
      (assign_phenotype_genotype
          ⟨PCell.str "", PCell.str "", PCell.str "", PCell.str "", PCell.str "",
            RCell.val 0, RCell.val 0, RCell.val 0, RCell.val 0, RCell.val 0,
            PCell.str "", PCell.str "", PCell.str "", PCell.str "", PCell.str "",
            PCell.str "", PCell.str "", PCell.str "", PCell.str "", PCell.str "",
            PCell.str ""⟩).reliability = "Unknown (no read data)") := by
  have h := claim4_unmatched_unknown "" "" "" "" ""
    (RCell.val 0) (RCell.val 0) (RCell.val 0) (RCell.val 0) (RCell.val 0)
    (PCell.str "") (PCell.str "") (PCell.str "") (PCell.str "") (PCell.str "")
    (PCell.str "") (PCell.str "") (PCell.str "") (PCell.str "") (PCell.str "")
    (PCell.str "") (by decide) (by decide) (by decide) (by decide) (by decide)
    (by decide)
  exact ⟨by decide, h.1, h.2.2.2⟩

/-- C5.  In exclude-indels mode (the indel policy decides `false`, which by
C10 entails depth < 200), every decoded record that is not an all-zero record
(equivalently: whose matches+mismatches denominator is nonzero, which is
exactly when the stored depth is nonzero) has insertion and deletion
percentages exactly 0 and four nucleotide percentages summing to exactly
100, the rounding remainder having been folded into the reference-base
percentage. -/
theorem claim5_exclude_indels :
    ∀ (line : String) (e : Option String) (t : Nat) (out : MStats),
      parse_mpileup_line line e t = some out →
      includeIndels e t out.pos out.depth = false →
      out.depth ≠ 0 →
      out.insertion_percent = 0 ∧ out.deletion_percent = 0 ∧
        out.a_percent + out.g_percent + out.c_percent + out.t_percent = 100 := by
  intro line e t out hp hinc hdep
  simp only [parse_mpileup_line] at hp
  split_ifs at hp with hlen
  rcases Option.bind_eq_some.mp hp with ⟨pos, hpos, hp2⟩
  rcases Option.bind_eq_some.mp hp2 with ⟨cov, hcov, hp3⟩
  split_ifs at hp3 with hc0
  · cases hp3
    exact absurd rfl hdep
  · rcases Option.bind_eq_some.mp hp3 with ⟨k, hscan, hst⟩
    rcases statsFromCounts_shape hst with hzero | ⟨hpos_eq, hdep_eq⟩
    · rw [hzero] at hdep
      exact absurd rfl hdep
    · have hincl : includeIndels e t pos cov = false := by
        rw [← hpos_eq, ← hdep_eq]
        exact hinc
      rw [hincl] at hst
      exact statsFromCounts_exclude hst (scanReadBases_bases_eq hscan) hdep

/-- C5 witness: an exon-6 line at position 30 with coverage 50 (exclude-indels
mode) decodes to A = 60, T = 40, insertions = deletions = 0, sum 100. -/
theorem claim5_witness :
    parse_mpileup_line "ref\t30\tA\t50\t...TT\tqual" (some "exon6") 0 =
      some ⟨30, "A", 60, 40, 0, 0, 60, 0, 0, 40, 50⟩ ∧
    includeIndels (some "exon6") 0
        (⟨30, "A", 60, 40, 0, 0, 60, 0, 0, 40, 50⟩ : MStats).pos
        (⟨30, "A", 60, 40, 0, 0, 60, 0, 0, 40, 50⟩ : MStats).depth = false ∧
    (⟨30, "A", 60, 40, 0, 0, 60, 0, 0, 40, 50⟩ : MStats).insertion_percent = 0 ∧
    (⟨30, "A", 60, 40, 0, 0, 60, 0, 0, 40, 50⟩ : MStats).deletion_percent = 0 ∧
    (⟨30, "A", 60, 40, 0, 0, 60, 0, 0, 40, 50⟩ : MStats).a_percent +
      (⟨30, "A", 60, 40, 0, 0, 60, 0, 0, 40, 50⟩ : MStats).g_percent +
      (⟨30, "A", 60, 40, 0, 0, 60, 0, 0, 40, 50⟩ : MStats).c_percent +
      (⟨30, "A", 60, 40, 0, 0, 60, 0, 0, 40, 50⟩ : MStats).t_percent = 100 := by
  have h1 : parse_mpileup_line "ref\t30\tA\t50\t...TT\tqual" (some "exon6") 0 =
      some ⟨30, "A", 60, 40, 0, 0, 60, 0, 0, 40, 50⟩ := by decide
  have h3 := claim5_exclude_indels _ _ _ _ h1 (by decide) (by decide)
  exact ⟨h1, by decide, h3.1, h3.2.1, h3.2.2⟩

/-- C6.  When the scanner meets an insertion token `+` followed by the digit
run `ds` (of value n) and n inserted characters, it counts exactly one
insertion event and resumes scanning after the inserted characters, which are
never counted as match or mismatch events: scanning `+ ds ins rest` equals
scanning `rest` with one extra insertion.  (The digit-run hypothesis says
`ds` is the maximal digit run: what follows starts with a non-digit.) -/
theorem claim6_insertion_atomic (ref : String) (ds ins rest : List Char) (n : Nat)
    (hdig : ds.all Char.isDigit = true)
    (hval : parseNat? ds = some n) (hlen : ins.length = n)
    (hhead : (ins ++ rest).takeWhile Char.isDigit = []) :
    scanReadBases ref ('+' :: (ds ++ (ins ++ rest))) =
      (scanReadBases ref rest).map
        (fun k => { k with insertions := k.insertions + 1 }) := by
  have hspan := span_digits ds (ins ++ rest) hdig hhead
  have hstep : scanReadBases ref ('+' :: (ds ++ (ins ++ rest))) =
      (scanAux ref ('+' :: (ds ++ (ins ++ rest))).length
          (((ds ++ (ins ++ rest)).dropWhile Char.isDigit).drop
            ((parseNat? ((ds ++ (ins ++ rest)).takeWhile Char.isDigit)).getD 0))).map
        (fun k => { k with insertions := k.insertions + 1 }) := by
    rw [scanReadBases]
    rw [show ('+' :: (ds ++ (ins ++ rest))).length + 1 =
      (('+' :: (ds ++ (ins ++ rest))).length) + 1 from rfl]
    rw [scanAux]
    rw [if_neg (by decide), if_neg (by decide), if_pos rfl]
  rw [hstep, hspan.1, hspan.2, hval]
  have hdrop : (ins ++ rest).drop ((some n).getD 0) = rest := by
    simp only [Option.getD_some]
    rw [← hlen, List.drop_left]
  rw [hdrop]
  have hfuel : scanAux ref ('+' :: (ds ++ (ins ++ rest))).length rest =
      scanAux ref (rest.length + 1) rest := by
    apply scanAux_congr
    · simp only [List.length_cons, List.length_append]
      omega
    · omega
  rw [hfuel]
  rfl

/-- C6 witness: the token +3AAA at the end of the code scans to exactly one
insertion over an empty remainder. -/
theorem claim6_witness :
    parseNat? ['3'] = some 3 ∧ ("AAA".data).length = 3 ∧
    ("AAA".data ++ ([] : List Char)).takeWhile Char.isDigit = [] ∧
    scanReadBases "A" ('+' :: (['3'] ++ ("AAA".data ++ []))) =
      (scanReadBases "A" []).map
        (fun k => { k with insertions := k.insertions + 1 }) :=
  ⟨by decide, by decide, by decide,
    claim6_insertion_atomic "A" ['3'] "AAA".data [] 3
      (by decide) (by decide) (by decide) (by decide)⟩

/-- C7 (amended).  Serializing a decoded frequency table to the tab-separated
intermediate format and re-parsing it with `read_nucleotide_frequencies`
yields, provided the table has at least 134 rows with pairwise-distinct
positions, a dictionary giving every serialized position a record whose
reference base and eight percentage fields equal the original values exactly;
the depth field however is NOT round-tripped (the re-parser never reads the
Depth column and resets `coverage` to 0), and a table with fewer than 134
data rows re-parses as empty. -/
theorem claim7_round_trip :
    (∀ tbl : List MStats, tbl.length < 134 →
      read_nucleotide_frequencies (serializeStatsTable tbl) = none) ∧
    (∀ tbl : List MStats, 134 ≤ tbl.length → (tbl.map MStats.pos).Nodup →
      ∀ s ∈ tbl, ∃ f, read_nucleotide_frequencies (serializeStatsTable tbl) = some f ∧
        f s.pos = some (reparsedRow s)) := by
  constructor
  · intro tbl h
    simp only [serializeStatsTable, read_nucleotide_frequencies]
    rw [if_pos (by simpa using h)]
  · intro tbl hlen hnd s hs
    have hparsed : (tbl.map write_stats_fields).filterMap parseFreqRow =
        tbl.map reparsedRow := by
      rw [List.filterMap_map]
      have : (parseFreqRow ∘ write_stats_fields) = (fun s => some (reparsedRow s)) := by
        funext x
        exact parseFreqRow_write_stats_fields x
      rw [this]
      exact List.filterMap_eq_map reparsedRow ▸ rfl
    have hne : (tbl.map reparsedRow).isEmpty = false := by
      cases tbl with
      | nil => simp at hlen
      | cons a l => simp [List.isEmpty]
    have hread : read_nucleotide_frequencies (serializeStatsTable tbl) =
        some (fun p => ((tbl.map reparsedRow).filter (fun r => r.pos = p)).getLast?) := by
      simp only [serializeStatsTable, read_nucleotide_frequencies]
      rw [if_neg (by simp; omega), hparsed, hne]
      simp
    refine ⟨_, hread, ?_⟩
    show ((tbl.map reparsedRow).filter (fun r => r.pos = s.pos)).getLast? =
      some (reparsedRow s)
    rw [filter_key_unique tbl s hs hnd]
    rfl

set_option maxRecDepth 8000 in
/-- C7 witness: a 134-row table with distinct positions round-trips every
percentage field; and a 1-row table re-parses as empty. -/
theorem claim7_witness :
    134 ≤ c7SampleTable.length ∧ (c7SampleTable.map MStats.pos).Nodup ∧
    (⟨5, "A", 100, 0, 0, 0, 100, 0, 0, 0, 7⟩ : MStats) ∈ c7SampleTable ∧
    (∃ f, read_nucleotide_frequencies (serializeStatsTable c7SampleTable) = some f ∧
      f (⟨5, "A", 100, 0, 0, 0, 100, 0, 0, 0, 7⟩ : MStats).pos =
        some (reparsedRow ⟨5, "A", 100, 0, 0, 0, 100, 0, 0, 0, 7⟩)) ∧
    c7TinyTable.length < 134 ∧
    read_nucleotide_frequencies (serializeStatsTable c7TinyTable) = none :=
  ⟨by decide, by decide, by decide,
    claim7_round_trip.2 c7SampleTable (by decide) (by decide) _ (by decide),
    by decide, claim7_round_trip.1 c7TinyTable (by decide)⟩

set_option maxRecDepth 8000 in
/-- C7 counterexample: in the 134-row table the record at position 5 was
serialized with depth 7, but the re-parsed record at position 5 carries
coverage 0 — the re-parsed PositionStats is not identical to the original
(depth is lost, beyond any rounding tolerance). -/
theorem claim7_counterexample :
    (⟨5, "A", 100, 0, 0, 0, 100, 0, 0, 0, 7⟩ : MStats) ∈ c7SampleTable ∧
    (∃ f, read_nucleotide_frequencies (serializeStatsTable c7SampleTable) = some f ∧
      f 5 = some ⟨5, "A", 100, 0, 0, 0, 100, 0, 0, 0, 0⟩) ∧
    (⟨5, "A", 100, 0, 0, 0, 100, 0, 0, 0, 0⟩ : PRow).coverage = 0 ∧
    (⟨5, "A", 100, 0, 0, 0, 100, 0, 0, 0, 7⟩ : MStats).depth = 7 ∧
    (0 : Int) ≠ 7 := by
  refine ⟨by decide, ⟨_, rfl, by decide⟩, rfl, rfl, by decide⟩

/-- C8 (amended).  Whenever genotype resolution hits a structural failure
(one of the ten mandatory primary Type/read-count cells is absent, so the
`df.at` lookup raises), the resolver sets Phenotype, Genotype and
ExtendedGenotype to the string "Error" and Reliability to the string
"Error processing" — not "Error" as claimed — all of which remain
distinguishable from "Unknown". -/
theorem claim8_error_fields : ∀ tbl : TypeTable,
    (tbl.t22 = PCell.missing ∨ tbl.t422 = PCell.missing ∨ tbl.t428 = PCell.missing ∨
      tbl.t429 = PCell.missing ∨ tbl.t431 = PCell.missing ∨ tbl.r22 = RCell.missing ∨
      tbl.r422 = RCell.missing ∨ tbl.r428 = RCell.missing ∨ tbl.r429 = RCell.missing ∨
      tbl.r431 = RCell.missing) →
    assign_phenotype_genotype tbl = ⟨"Error", "Error", "Error", "Error processing"⟩ := by
  intro tbl h
  unfold assign_phenotype_genotype
  rw [if_pos h]
  rfl

/-- C8 witness: a table whose position-22 Type column is missing resolves to
the Error record. -/
theorem claim8_witness :
    c8Table.t22 = PCell.missing ∧
    assign_phenotype_genotype c8Table =
      ⟨"Error", "Error", "Error", "Error processing"⟩ :=
  ⟨rfl, claim8_error_fields c8Table (Or.inl rfl)⟩

/-- C8 counterexample: on a structural failure the Reliability field is
"Error processing", not the string "Error" the claim asserts for all four
output fields. -/
theorem claim8_counterexample :
    assign_phenotype_genotype c8Table =
      ⟨"Error", "Error", "Error", "Error processing"⟩ ∧
    ("Error processing" : String) ≠ "Error" :=
  ⟨by decide, by decide⟩

/-- C9 (amended).  The decoder requires at least SIX tab-separated fields —
the qualities column is mandatory, contrary to the claim — and skipping is
non-fatal (None): every line with fewer than six fields is skipped, and
every line with at least six fields, integer position and depth fields, and
a reference base that uppercases to one of A/C/G/T is decoded into a
PositionStats record.  (Lines whose numeric fields fail to parse or whose
reference base is outside ACGT are also skipped via the same exception
path.) -/
theorem claim9_malformed_lines :
    (∀ (line : String) (e : Option String) (t : Nat),
      (lineFields line).length < 6 → parse_mpileup_line line e t = none) ∧
    (∀ (line : String) (e : Option String) (t : Nat) (pos cov : Int),
      6 ≤ (lineFields line).length →
      pyInt? (((lineFields line).get? 1).getD "") = some pos →
      pyInt? (((lineFields line).get? 3).getD "") = some cov →
      (pyUpper (((lineFields line).get? 2).getD "") = "A" ∨
        pyUpper (((lineFields line).get? 2).getD "") = "C" ∨
        pyUpper (((lineFields line).get? 2).getD "") = "G" ∨
        pyUpper (((lineFields line).get? 2).getD "") = "T") →
      (parse_mpileup_line line e t).isSome = true) := by
  constructor
  · intro line e t h
    simp only [parse_mpileup_line]
    rw [if_pos h]
  · intro line e t pos cov hlen hpos hcov href
    simp only [parse_mpileup_line]
    rw [if_neg (by omega), hpos, Option.some_bind, hcov, Option.some_bind]
    split_ifs with hc0
    · simp
    · rcases Option.isSome_iff_exists.mp
        (scanReadBases_isSome
          ((stripCarets (((lineFields line).get? 4).getD "").data).filter
            (fun c => c ≠ '$')) href) with ⟨k, hk⟩
      rw [hk, Option.some_bind]
      exact statsFromCounts_isSome _ _ _ _ href

/-- C9 witness: a two-field line is skipped; a well-formed six-field line is
decoded. -/
theorem claim9_witness :
    (lineFields "ref\t30").length < 6 ∧
    parse_mpileup_line "ref\t30" none 0 = none ∧
    6 ≤ (lineFields "ref\t30\tA\t50\t.....\tq").length ∧
    (parse_mpileup_line "ref\t30\tA\t50\t.....\tq" none 0).isSome = true :=
  ⟨by decide, claim9_malformed_lines.1 "ref\t30" none 0 (by decide), by decide,
    claim9_malformed_lines.2 "ref\t30\tA\t50\t.....\tq" none 0 30 50
      (by decide) (by decide) (by decide) (by decide)⟩

/-- C9 counterexample: a line carrying exactly the five mandatory fields
(reference, position, reference base, depth, read-base code) but no
qualities column is NOT decoded — the code's minimum is six fields, so the
qualities field is not optional as the claim states. -/
theorem claim9_counterexample :
    (lineFields "ref\t30\tA\t5\t.....").length = 5 ∧
    parse_mpileup_line "ref\t30\tA\t5\t....." none 0 = none :=
  ⟨by decide, by decide⟩

/-- C10.  The indel-policy decision excludes indels only for records with
depth (coverage) strictly below 200: every record with depth at least 200 is
computed with the include-indels denominator, regardless of exon, position
or total row count; conversely exclude-indels mode implies depth < 200. -/
theorem claim10_coverage_gate :
    (∀ (e : Option String) (t : Nat) (pos cov : Int), 200 ≤ cov →
      includeIndels e t pos cov = true) ∧
    (∀ (e : Option String) (t : Nat) (pos cov : Int),
      includeIndels e t pos cov = false → cov < 200) := by
  constructor
  · intro e t pos cov h
    unfold includeIndels
    rw [if_neg (by rintro ⟨_, h2, _⟩; omega), if_neg (by rintro ⟨_, h2⟩; omega)]
  · intro e t pos cov h
    by_contra hc
    push_neg at hc
    unfold includeIndels at h
    rw [if_neg (by rintro ⟨_, h2, _⟩; omega), if_neg (by rintro ⟨_, h2⟩; omega)] at h
    exact absurd h (by simp)

/-- C10 witness: an exon-6 record at coverage 250 keeps the include-indels
denominator. -/
theorem claim10_witness : 200 ≤ (250 : Int) ∧
    includeIndels (some "exon6") 150 5 250 = true :=
  ⟨by decide, claim10_coverage_gate.1 (some "exon6") 150 5 250 (by decide)⟩

end Abotyper
